import Mathlib

/-!
Verification of the requirement-extraction and gap-filling pipeline of the
Jira_Testcases repository. The executable pipeline pieces live inline in the
test files: `RAGFiller.fill_missing` together with its mock retriever and
generator in SCRUM-82_tests.py, `RequirementExtractor.generate_document` in
SCRUM-52_tests.py, and `extract_requirements` in SCRUM-92_tests.py. They are
embedded here shallowly: Python dicts become insertion-ordered association
lists, Python `None` becomes the `PyVal.null` constructor, exceptions become
`Except.error` carrying the raised message.
-/

/-- A Python value as it occurs in the requirement records of the test files:
a string, an integer, or `None`. -/
inductive PyVal where
  | str : String → PyVal
  | intv : Int → PyVal
  | null : PyVal
deriving DecidableEq, Repr

/-- A Python dict with string keys, modelled as an insertion-ordered
association list: updates keep the position of an existing key, new keys are
appended at the end. -/
abbrev PyDict := List (String × PyVal)

/-- Lookup of a key in a dict (first matching entry). -/
def dictGet : PyDict → String → Option PyVal
  | [], _ => none
  | (k', v') :: rest, k => if k' = k then some v' else dictGet rest k

/-- Assignment `d[k] = v` on a dict: replaces the value at an existing key in
place, otherwise appends the new binding at the end. -/
def dictSet : PyDict → String → PyVal → PyDict
  | [], k, v => [(k, v)]
  | (k', v') :: rest, k, v =>
      if k' = k then (k, v) :: rest else (k', v') :: dictSet rest k v

theorem dictGet_dictSet_self (l : PyDict) (k : String) (v : PyVal) :
    dictGet (dictSet l k v) k = some v := by
  induction l with
  | nil => simp [dictSet, dictGet]
  | cons hd tl ih =>
    obtain ⟨k', v'⟩ := hd
    by_cases hk : k' = k
    · simp [dictSet, dictGet, hk]
    · simp [dictSet, dictGet, hk, ih]

theorem dictGet_dictSet_ne (l : PyDict) (k : String) (v : PyVal) (k' : String)
    (hk : k' ≠ k) : dictGet (dictSet l k v) k' = dictGet l k' := by
  have hk2 : ¬ k = k' := fun h => hk h.symm
  induction l with
  | nil => simp [dictSet, dictGet, hk2]
  | cons hd tl ih =>
    obtain ⟨k₀, v₀⟩ := hd
    by_cases h₀ : k₀ = k
    · subst h₀
      simp [dictSet, dictGet, hk2]
    · by_cases h₁ : k₀ = k'
      · subst h₁
        simp [dictSet, dictGet, h₀]
      · simp [dictSet, dictGet, h₀, h₁, ih]

theorem dictSet_dictSet_self (l : PyDict) (k : String) (v w : PyVal) :
    dictSet (dictSet l k v) k w = dictSet l k w := by
  induction l with
  | nil => simp [dictSet]
  | cons hd tl ih =>
    obtain ⟨k₀, v₀⟩ := hd
    by_cases h₀ : k₀ = k
    · simp [dictSet, h₀]
    · simp [dictSet, h₀, ih]

/-- MockRetriever.retrieve from SCRUM-82_tests.py: a knowledge-base search
stub keyed on the literal query string. -/
def MockRetriever.retrieve (query : String) : List String :=
  if query = "What is the maximum user limit?" then
    ["The maximum user limit is 1000."]
  else if query = "What is the system response time?" then
    ["System response time must be less than 2 seconds."]
  else
    []

/-- MockGenerator.generate from SCRUM-82_tests.py: text generation stub,
mapping the missing field name to a fixed value (the retrieved context is
ignored by the mock, exactly as in the source). -/
def MockGenerator.generate (context : List String) (missing_field : String) : String :=
  if missing_field = "maximum user limit" then "1000"
  else if missing_field = "system response time" then "less than 2 seconds"
  else "N/A"

/-- RAGFiller.fill_missing from SCRUM-82_tests.py. The retriever and
generator are injected capabilities (constructor arguments in the source),
so the embedding takes them as function parameters. The Python code builds
the query from the field name alone, returns `None` when retrieval yields no
context, and otherwise copies the requirement and assigns the generated
value at the field key. -/
def RAGFiller.fill_missing (retrieverFn : String → List String)
    (generatorFn : List String → String → String)
    (requirement : PyDict) (missing_field : String) : Option PyDict :=
  let context := retrieverFn ("What is the " ++ missing_field ++ "?")
  if context = [] then none
  else some (dictSet requirement missing_field
    (PyVal.str (generatorFn context missing_field)))

/-- Executable prefix test on strings (the library version is defined by
well-founded recursion and does not evaluate inside the kernel). -/
def strStartsWith (s p : String) : Bool :=
  p.data.isPrefixOf s.data

/-- Executable suffix test on strings. -/
def strEndsWith (s p : String) : Bool :=
  p.data.isSuffixOf s.data

/-- Lower-casing of one character, as Python str.lower acts on ASCII. -/
def charLower (c : Char) : Char :=
  if c.toNat ≥ 65 ∧ c.toNat ≤ 90 then Char.ofNat (c.toNat + 32) else c

/-- Executable lower-casing of a string. -/
def strToLower (s : String) : String :=
  ⟨s.data.map charLower⟩

/-- Splitting a character list at newline characters, mirroring the Python
`content.split("\n")`. -/
def splitLinesAux : List Char → List Char → List (List Char)
  | [], acc => [acc.reverse]
  | c :: rest, acc =>
      if c = '\n' then acc.reverse :: splitLinesAux rest []
      else splitLinesAux rest (c :: acc)

/-- The lines of a document, in order. -/
def docLines (content : String) : List String :=
  (splitLinesAux content.data []).map (fun cs => String.mk cs)

/-- A file on disk, reduced to the two observables the embedded code reads:
its path (for the extension check) and its content (for the size check). -/
structure PyFile where
  path : String
  content : String
deriving DecidableEq, Repr

/-- The extension check of RequirementExtractor.generate_document in
SCRUM-52_tests.py: `input_path.lower().endswith((".pdf", ".xlsx", ".xls",
".png", ".jpg", ".jpeg"))`. -/
def supportedUploadExt (input_path : String) : Bool :=
  let p := strToLower input_path
  strEndsWith p ".pdf" || strEndsWith p ".xlsx" || strEndsWith p ".xls" ||
    strEndsWith p ".png" || strEndsWith p ".jpg" || strEndsWith p ".jpeg"

/-- RequirementExtractor.generate_document from SCRUM-52_tests.py. A missing
input file is modelled as `none`; the checks run in source order: existence,
then emptiness (`os.path.getsize == 0`), then the filename-extension check.
On success the function writes the generated document, returned here as the
output file. -/
def RequirementExtractor.generate_document (template_path : String)
    (input : Option PyFile) (output_path : String) : Except String PyFile :=
  match input with
  | none => Except.error "Input file does not exist."
  | some f =>
    if f.content.length = 0 then Except.error "Input file is empty."
    else if ¬ supportedUploadExt f.path then Except.error "Unsupported file format."
    else Except.ok ⟨output_path,
      "Generated Requirements Document\n" ++ "Template: " ++ template_path
        ++ "\n" ++ "Input: " ++ f.path ++ "\n" ++ "Content: ..."⟩

/-- Whether an extraction attempt succeeded (did not raise). -/
def exceptOk {α β : Type} : Except α β → Bool
  | Except.ok _ => true
  | Except.error _ => false

/-- Modelled from the spec: content-signature sniffing (spec section 4.1).
No content-signature check exists anywhere in the repository; this
definition renders the sniffing policy the spec describes, using the magic
bytes named in the test corpus (the percent-PDF header written in
test_scrum-99.py, the PK zip header, the PNG header), so that the claimed
signature-over-extension policy can be stated and compared with the code. -/
def sniffFormatBySignature (content : String) : String :=
  if strStartsWith content "%PDF" then "pdf"
  else if strStartsWith content "PK\x03\x04" then "word"
  else if strStartsWith content "\x89PNG" then "image"
  else "unknown"

/-- The supported format tags of extract_requirements in SCRUM-92_tests.py. -/
def supportedInputFormats : List String := ["pdf", "docx", "email", "graph"]

/-- A structured requirement record as returned by extract_requirements in
SCRUM-92_tests.py. -/
structure ExtractedReq where
  id : Int
  requirement : String
deriving DecidableEq, Repr

/-- extract_requirements from SCRUM-92_tests.py: raises on empty input data,
then on an unsupported format tag, then on the corrupt marker, and otherwise
returns the dummy structured requirements list. -/
def extract_requirements (input_data : String) (input_format : String) :
    Except String (List ExtractedReq) :=
  if input_data = "" then Except.error "Input data is empty"
  else if ¬ (input_format ∈ supportedInputFormats) then
    Except.error "Unsupported input format"
  else if input_data = "corrupt" then Except.error "Corrupt input data"
  else Except.ok [⟨1, "The system shall..."⟩]

/-- The closed format set of the spec (section 4.1). -/
def specFormats : List String := ["pdf", "word", "spreadsheet", "image", "email", "graph"]

/-- The marker-based fragment scan of the spec (section 4.3): lines carrying
the recognized "Requirement:" marker become fragments. -/
def requirementFragments (content : String) : List String :=
  (docLines content).filter (fun line => strStartsWith line "Requirement:")

/-- Modelled from the spec: the real `requirement_extractor.extract_requirements`
imported by SCRUM-60_tests.py and test_scrum-99.py is absent from the
repository (the tests import it from a module that does not exist). Per the
spec sections 4.2 and 4.3: a zero-length payload raises EmptyDocumentError,
an unrecognized format raises UnsupportedFormatError, and a valid document
yields the (possibly empty) sequence of marker-matched fragments — an empty
result is a success, not an error. -/
def extract_requirements_pipeline (content : String) (input_format : String) :
    Except String (List String) :=
  if content = "" then Except.error "EmptyDocumentError"
  else if ¬ (input_format ∈ specFormats) then Except.error "UnsupportedFormatError"
  else Except.ok (requirementFragments content)

/-- Modelled from the spec: the knowledge source of the concrete scenario in
spec section 8, associating the description field with the password-reset
sentence. The in-repository MockRetriever knows no description entry, so the
scenario needs this injected retriever; it answers the query string that
RAGFiller.fill_missing builds for the description field. -/
def scenarioRetrieve (query : String) : List String :=
  if query = "What is the description?" then
    ["The system shall support password reset."]
  else
    []

/-- Modelled from the spec: a generation capability that does not fabricate —
it returns the top-ranked retrieved candidate verbatim (spec sections 1 and
4.5: the generator must not fabricate data it cannot support from the
knowledge source). -/
def scenarioGenerate (context : List String) (missing_field : String) : String :=
  match context with
  | [] => "N/A"
  | c :: _ => c

/-- C1: gap-filling is claimed to change only fields that are explicitly
missing and never to overwrite a concrete value. Evaluating
RAGFiller.fill_missing at the exact input of the repository test
test_fill_when_field_already_present (which asserts the value stays "500")
shows the code overwrites the concrete value "500" with the generated
"1000". -/
theorem fill_missing_overwrites_concrete_value :
    RAGFiller.fill_missing MockRetriever.retrieve MockGenerator.generate
      [("id", PyVal.intv 4), ("description", PyVal.str "Existing field test"),
       ("maximum user limit", PyVal.str "500")]
      "maximum user limit"
    = some [("id", PyVal.intv 4), ("description", PyVal.str "Existing field test"),
            ("maximum user limit", PyVal.str "1000")] := by
  rfl

/-- C2 counterexample: on the requirement of the repository test
test_fill_missing_field_with_no_context, where retrieval yields no
candidates for the field "unknown field", RAGFiller.fill_missing returns
`none` (Python None) — it does not produce any filled requirement, so the
field is never set to an "unresolved" sentinel value. -/
theorem fill_missing_no_candidates_returns_null :
    RAGFiller.fill_missing MockRetriever.retrieve MockGenerator.generate
      [("id", PyVal.intv 2), ("description", PyVal.str "Unknown field"),
       ("unknown field", PyVal.null)]
      "unknown field" = none := by
  rfl

/-- C2 (amended): if the retriever returns an empty candidate sequence for
the query built from the field key, RAGFiller.fill_missing returns `none`
(the null result) rather than any filled requirement, so no fabricated text
is ever produced for the field. -/
theorem fill_missing_empty_candidates_yields_none (r : String → List String)
    (g : List String → String → String) (requirement : PyDict) (f : String)
    (h : r ("What is the " ++ f ++ "?") = []) :
    RAGFiller.fill_missing r g requirement f = none := by
  simp [RAGFiller.fill_missing, h]

/-- C2 witness: the amended statement evaluated at the concrete input of
test_fill_missing_field_with_no_context. -/
theorem fill_missing_empty_candidates_yields_none_witness :
    MockRetriever.retrieve ("What is the " ++ "unknown field" ++ "?") = [] ∧
    RAGFiller.fill_missing MockRetriever.retrieve MockGenerator.generate
      [("id", PyVal.intv 2), ("description", PyVal.str "Unknown field"),
       ("unknown field", PyVal.null)]
      "unknown field" = none :=
  ⟨by decide,
   fill_missing_empty_candidates_yields_none MockRetriever.retrieve
     MockGenerator.generate
     [("id", PyVal.intv 2), ("description", PyVal.str "Unknown field"),
      ("unknown field", PyVal.null)]
     "unknown field" (by decide)⟩

/-- C3: the gap-filling generation step is deterministic — it is embedded as
a pure function of (field key, candidates), exactly as the stateless source
code — and repeated runs converge: if a first run of
RAGFiller.fill_missing produced the filled requirement d, running the fill
again on d reproduces d unchanged. -/
theorem fill_missing_idempotent (r : String → List String)
    (g : List String → String → String) (req d : PyDict) (f : String)
    (h : RAGFiller.fill_missing r g req f = some d) :
    RAGFiller.fill_missing r g d f = some d := by
  unfold RAGFiller.fill_missing at h ⊢
  by_cases hc : r ("What is the " ++ f ++ "?") = []
  · simp [hc] at h
  · simp only [hc, if_neg, ite_false, Option.some.injEq] at h
    simp only [hc, ite_false, Option.some.injEq]
    rw [← h, dictSet_dictSet_self]

/-- C3 witness: a first fill of the missing maximum-user-limit field yields
a concrete d, and filling d again returns the same d. -/
theorem fill_missing_idempotent_witness :
    RAGFiller.fill_missing MockRetriever.retrieve MockGenerator.generate
      [("id", PyVal.intv 1), ("maximum user limit", PyVal.str "1000")]
      "maximum user limit"
    = some [("id", PyVal.intv 1), ("maximum user limit", PyVal.str "1000")] :=
  fill_missing_idempotent MockRetriever.retrieve MockGenerator.generate
    [("id", PyVal.intv 1), ("maximum user limit", PyVal.null)]
    [("id", PyVal.intv 1), ("maximum user limit", PyVal.str "1000")]
    "maximum user limit" (by decide)

/-- C4 counterexample: a file whose content carries the PDF magic bytes but
whose name ends in ".txt" has content signature "pdf" (a supported format),
yet RequirementExtractor.generate_document rejects it as an unsupported
format — the decision followed the filename extension, not the content
signature. -/
theorem format_decided_by_extension_not_signature :
    sniffFormatBySignature "%PDF-1.4\nRequirement: sample" = "pdf" ∧
    RequirementExtractor.generate_document "template.docx"
      (some ⟨"sample.txt", "%PDF-1.4\nRequirement: sample"⟩) "out.docx"
    = Except.error "Unsupported file format." := by
  exact ⟨by decide, by rfl⟩

/-- C4 (amended): format acceptance in
RequirementExtractor.generate_document is decided by the filename extension
alone — for every non-empty input file, generation succeeds exactly when the
lower-cased path ends in one of the supported extensions, regardless of the
content. -/
theorem generate_document_decided_by_extension (template_path output_path : String)
    (f : PyFile) (h : f.content.length ≠ 0) :
    exceptOk (RequirementExtractor.generate_document template_path (some f) output_path)
      = supportedUploadExt f.path := by
  by_cases he : supportedUploadExt f.path
  · simp [RequirementExtractor.generate_document, h, he, exceptOk]
  · simp [RequirementExtractor.generate_document, h, he, exceptOk]

/-- C4 witness: the amended statement evaluated on the sample.pdf input of
SCRUM-52_tests.py. -/
theorem generate_document_decided_by_extension_witness :
    ("PDF content" : String).length ≠ 0 ∧
    exceptOk (RequirementExtractor.generate_document "template.docx"
        (some ⟨"sample.pdf", "PDF content"⟩) "out.docx")
      = supportedUploadExt "sample.pdf" :=
  ⟨by decide,
   generate_document_decided_by_extension "template.docx" "out.docx"
     ⟨"sample.pdf", "PDF content"⟩ (by decide)⟩

/-- C5: for every supported format tag, extract_requirements on a
zero-length payload raises the empty-document error rather than returning a
silent empty result. -/
theorem extract_requirements_empty_raises (input_format : String)
    (h : input_format ∈ supportedInputFormats) :
    extract_requirements "" input_format = Except.error "Input data is empty" := by
  rfl

/-- C5 witness: the empty payload under the pdf format tag. -/
theorem extract_requirements_empty_raises_witness :
    "pdf" ∈ supportedInputFormats ∧
    extract_requirements "" "pdf" = Except.error "Input data is empty" :=
  ⟨by decide, extract_requirements_empty_raises "pdf" (by decide)⟩

/-- C6: for every non-empty payload whose format tag is outside the
supported set, extract_requirements raises the unsupported-format error and
never produces a batch. -/
theorem extract_requirements_unsupported_raises (input_data input_format : String)
    (h1 : input_data ≠ "") (h2 : input_format ∉ supportedInputFormats) :
    extract_requirements input_data input_format
      = Except.error "Unsupported input format" := by
  simp [extract_requirements, h1, h2]

/-- C6 witness: plain text under the txt tag, the input of
test_extract_from_unsupported_format in SCRUM-92_tests.py. -/
theorem extract_requirements_unsupported_raises_witness :
    ("Some data" : String) ≠ "" ∧ "txt" ∉ supportedInputFormats ∧
    extract_requirements "Some data" "txt" = Except.error "Unsupported input format" :=
  ⟨by decide, by decide,
   extract_requirements_unsupported_raises "Some data" "txt" (by decide) (by decide)⟩

/-- C7: a valid non-empty document in a supported format that contains no
requirement-like content extracts successfully to the empty sequence — an
`Except.ok []`, never an error — so callers can tell nothing-found from
extraction-failed. -/
theorem extract_pipeline_no_content_returns_empty (content input_format : String)
    (h1 : content ≠ "") (h2 : input_format ∈ specFormats)
    (h3 : ∀ line ∈ docLines content, strStartsWith line "Requirement:" = false) :
    extract_requirements_pipeline content input_format = Except.ok [] := by
  have hf : requirementFragments content = [] := by
    apply List.filter_eq_nil_iff.mpr
    intro a ha
    simp [h3 a ha]
  simp [extract_requirements_pipeline, h1, h2, hf]

/-- C7 witness: an email document with text but no requirement markers. -/
theorem extract_pipeline_no_content_returns_empty_witness :
    ("hello world" : String) ≠ "" ∧ "email" ∈ specFormats ∧
    extract_requirements_pipeline "hello world" "email" = Except.ok [] :=
  ⟨by decide, by decide,
   extract_pipeline_no_content_returns_empty "hello world" "email"
     (by decide) (by decide) (by decide)⟩

/-- C8: gap-filling the requirement with a missing description, Medium
priority and email source against the knowledge source that associates the
description field with the password-reset sentence yields exactly the
requirement with that description filled in and the other two fields
untouched. -/
theorem fill_missing_password_reset_scenario :
    RAGFiller.fill_missing scenarioRetrieve scenarioGenerate
      [("description", PyVal.null), ("priority", PyVal.str "Medium"),
       ("source", PyVal.str "email")]
      "description"
    = some [("description", PyVal.str "The system shall support password reset."),
            ("priority", PyVal.str "Medium"), ("source", PyVal.str "email")] := by
  rfl

/-- C9: the fill operation is frame-preserving — whenever
RAGFiller.fill_missing produces a filled requirement, every field other than
the target field key holds exactly the value it held before: in particular
the source provenance field is never rewritten. -/
theorem fill_missing_frame (r : String → List String)
    (g : List String → String → String) (req d : PyDict) (missing_field k : String)
    (h : RAGFiller.fill_missing r g req missing_field = some d)
    (hk : k ≠ missing_field) :
    dictGet d k = dictGet req k := by
  unfold RAGFiller.fill_missing at h
  by_cases hc : r ("What is the " ++ missing_field ++ "?") = []
  · simp [hc] at h
  · simp only [hc, ite_false, Option.some.injEq] at h
    rw [← h, dictGet_dictSet_ne _ _ _ _ hk]

/-- C9 witness: filling the maximum-user-limit field leaves the source
field of the requirement unchanged. -/
theorem fill_missing_frame_witness :
    RAGFiller.fill_missing MockRetriever.retrieve MockGenerator.generate
      [("source", PyVal.str "email"), ("maximum user limit", PyVal.null)]
      "maximum user limit"
    = some [("source", PyVal.str "email"), ("maximum user limit", PyVal.str "1000")] ∧
    ("source" : String) ≠ "maximum user limit" ∧
    dictGet [("source", PyVal.str "email"), ("maximum user limit", PyVal.str "1000")]
        "source"
      = dictGet [("source", PyVal.str "email"), ("maximum user limit", PyVal.null)]
        "source" :=
  ⟨by decide, by decide,
   fill_missing_frame MockRetriever.retrieve MockGenerator.generate
     [("source", PyVal.str "email"), ("maximum user limit", PyVal.null)]
     [("source", PyVal.str "email"), ("maximum user limit", PyVal.str "1000")]
     "maximum user limit" "source" (by decide) (by decide)⟩

/-- C10: with the retriever and generator fixed, the value the gap-filler
assigns to a field depends only on the field key — two requirements that
differ arbitrarily in their other content receive the same filled value at
the target field, because the retrieval query is built from the field key
alone. -/
theorem fill_missing_value_depends_only_on_field (r : String → List String)
    (g : List String → String → String) (req1 req2 d1 d2 : PyDict)
    (missing_field : String)
    (h1 : RAGFiller.fill_missing r g req1 missing_field = some d1)
    (h2 : RAGFiller.fill_missing r g req2 missing_field = some d2) :
    dictGet d1 missing_field = dictGet d2 missing_field := by
  unfold RAGFiller.fill_missing at h1 h2
  by_cases hc : r ("What is the " ++ missing_field ++ "?") = []
  · simp [hc] at h1
  · simp only [hc, ite_false, Option.some.injEq] at h1 h2
    rw [← h1, ← h2, dictGet_dictSet_self, dictGet_dictSet_self]

/-- C10 witness: two requirements with different ids and different extra
content receive the identical filled value for the maximum-user-limit
field. -/
theorem fill_missing_value_depends_only_on_field_witness :
    RAGFiller.fill_missing MockRetriever.retrieve MockGenerator.generate
      [("id", PyVal.intv 1)] "maximum user limit"
    = some [("id", PyVal.intv 1), ("maximum user limit", PyVal.str "1000")] ∧
    RAGFiller.fill_missing MockRetriever.retrieve MockGenerator.generate
      [("id", PyVal.intv 2), ("description", PyVal.str "completely different")]
      "maximum user limit"
    = some [("id", PyVal.intv 2), ("description", PyVal.str "completely different"),
            ("maximum user limit", PyVal.str "1000")] ∧
    dictGet [("id", PyVal.intv 1), ("maximum user limit", PyVal.str "1000")]
        "maximum user limit"
      = dictGet [("id", PyVal.intv 2), ("description", PyVal.str "completely different"),
          ("maximum user limit", PyVal.str "1000")]
        "maximum user limit" :=
  ⟨by decide, by decide,
   fill_missing_value_depends_only_on_field MockRetriever.retrieve
     MockGenerator.generate
     [("id", PyVal.intv 1)]
     [("id", PyVal.intv 2), ("description", PyVal.str "completely different")]
     [("id", PyVal.intv 1), ("maximum user limit", PyVal.str "1000")]
     [("id", PyVal.intv 2), ("description", PyVal.str "completely different"),
      ("maximum user limit", PyVal.str "1000")]
     "maximum user limit" (by decide) (by decide)⟩


